import Mathlib

/-!
Shallow embedding of `lldb/source/Expression/LLVMUserExpression.cpp`
(`LLVMUserExpression::Execute`, `LLVMUserExpression::FinalizeJITExecution`,
`LLVMUserExpression::PrepareToExecuteJITExpression`).

The member state of the expression object is `ExprState`; the behaviour of the
external collaborators (context lock, allocator, materializer, IR interpreter,
thread-plan machinery, process) is an oracle record `Env`.  Calls into the
collaborators are recorded in an event trace (`Event`), and everything written
to the `error_stream` is recorded as a tag in a message list (`Msg`), one tag
per `Printf`/`PutCString` site in the source.
-/

namespace LLVMUserExpression

/-- The sentinel `LLDB_INVALID_ADDRESS`, which is `UINT64_MAX`. -/
def LLDB_INVALID_ADDRESS : Nat := 2 ^ 64 - 1

/-- The `lldb::ExpressionResults` enumeration (the members this file uses, plus
`eExpressionTimedOut` standing for the remaining values
`Process::RunThreadPlan` can produce). -/
inductive ExpressionResults
  | eExpressionCompleted
  | eExpressionSetupError
  | eExpressionDiscarded
  | eExpressionInterrupted
  | eExpressionHitBreakpoint
  | eExpressionStoppedForDebug
  | eExpressionResultUnavailable
  | eExpressionTimedOut
deriving DecidableEq

/-- The `IRMemoryMap::AllocationPolicy` enumeration (the two members this file
uses). -/
inductive AllocationPolicy
  | eAllocationPolicyHostOnly
  | eAllocationPolicyMirror
deriving DecidableEq

/-- Calls made into the external collaborators, in program order. -/
inductive Event
  /-- Call to `m_execution_unit_sp->Malloc` for the materialized struct
  (size, alignment, policy). -/
  | mallocStructEv (size align : Nat) (policy : AllocationPolicy)
  /-- Call to `m_execution_unit_sp->Malloc` for the interpreter stack frame
  (size, alignment, policy). -/
  | mallocStackEv (size align : Nat) (policy : AllocationPolicy)
  /-- Call to `m_materializer_ap->Materialize(frame, ..., struct_address, ...)`. -/
  | materializeEv (struct_address : Nat)
  /-- Call to `IRInterpreter::Interpret(...)`; the argument vector ends with
  `struct_address`. -/
  | interpretEv (struct_address : Nat)
  /-- Call to `new ThreadPlanCallUserExpression(...)`; the argument vector
  ends with `struct_address`. -/
  | buildCallPlanEv (struct_address : Nat)
  /-- Call to `exe_ctx.GetProcessPtr()->SetRunningUserExpression(b)`. -/
  | setRunningUserExpressionEv (b : Bool)
  /-- Call to `exe_ctx.GetProcessRef().RunThreadPlan(...)`. -/
  | runThreadPlanEv
  /-- Call to `user_expression_plan->TransferExpressionOwnership()`. -/
  | transferExpressionOwnershipEv
  /-- Call to `m_dematerializer_sp->Dematerialize(error, bottom, top)`. -/
  | dematerializeEv (stack_bottom stack_top : Nat)
deriving DecidableEq

/-- One tag per message written to `error_stream` in the source, identified by
the line of the `Printf`/`PutCString` call that emits it. -/
inductive Msg
  /-- Line 92: errored out, could not PrepareToExecuteJITExpression. -/
  | erroredOutPrepare
  /-- Line 106: supposed to interpret, but nothing is there. -/
  | supposedToInterpretNothingThere
  /-- Lines 116 and 148: errored out, could not AddInitialArguments. -/
  | erroredOutAddInitialArguments
  /-- Line 130: supposed to interpret, but failed. -/
  | supposedToInterpretButFailed
  /-- Line 138: UserExpression::Execute called with no thread selected. -/
  | noThreadSelected
  /-- Lines 194 and 196: execution was interrupted (with or without a
  stop-info reason). -/
  | executionWasInterrupted
  /-- Line 200: the process has been returned to the state before expression
  evaluation. -/
  | processReturnedToState
  /-- Line 206: the process has been left at the point where it was
  interrupted. -/
  | processLeftAtInterruption
  /-- Line 215: execution was halted at the first instruction of the
  expression function because debug was requested. -/
  | executionHaltedForDebug
  /-- Line 223: could not execute function; result was %s. -/
  | couldNotExecuteFunction
  /-- Line 240: expression cannot be run, because there is no JIT compiled
  function. -/
  | noJITCompiledFunction
  /-- Line 292: the context has changed before we could JIT the expression. -/
  | contextChanged
  /-- Line 311: could not allocate space for materialized struct. -/
  | couldNotAllocateStruct
  /-- Line 332: could not allocate space for the stack frame. -/
  | couldNotAllocateStackFrame
  /-- Line 344: could not materialize. -/
  | couldNotMaterialize
  /-- Line 257: could not apply expression side effects, no dematerializer is
  present. -/
  | noDematerializerPresent
  /-- Line 267: could not apply expression side effects. -/
  | couldNotApplySideEffects
deriving DecidableEq

/-- The member state of `LLVMUserExpression` that this file reads and writes.
`m_dematerializer_sp` is modelled by whether the shared pointer is non-null. -/
structure ExprState where
  m_jit_start_addr : Nat
  m_can_interpret : Bool
  m_materialized_address : Nat
  m_stack_frame_bottom : Nat
  m_stack_frame_top : Nat
  m_dematerializer_sp : Bool
deriving DecidableEq

/-- Oracle for the behaviour of the external collaborators during one call.
`structMalloc` / `stackMalloc` are `some addr` when the corresponding
`IRExecutionUnit::Malloc` call succeeds returning `addr` and `none` when it
fails (in which case it returns `LLDB_INVALID_ADDRESS`). -/
structure Env where
  /-- result of `LockAndCheckContext(exe_ctx, target, process, frame)` -/
  lockAndCheckContext : Bool
  /-- Value of `m_materializer_ap->GetStructByteSize()`. -/
  structByteSize : Nat
  /-- Value of `m_materializer_ap->GetStructAlignment()`. -/
  structAlignment : Nat
  structMalloc : Option Nat
  stackMalloc : Option Nat
  /-- whether `m_materializer_ap->Materialize(...)` succeeds (returning a
  dematerializer, with `materialize_error.Success()`) -/
  materializeSuccess : Bool
  /-- Whether `m_execution_unit_sp->GetModule() != nullptr`. -/
  modulePresent : Bool
  /-- Whether `m_execution_unit_sp->GetFunction() != nullptr`. -/
  functionPresent : Bool
  /-- result of `AddInitialArguments(exe_ctx, args, error_stream)` -/
  addInitialArguments : Bool
  /-- whether `IRInterpreter::Interpret` leaves `interpreter_error.Success()` -/
  interpretSuccess : Bool
  /-- Value of `exe_ctx.HasThreadScope()`. -/
  hasThreadScope : Bool
  /-- Result of `call_plan_sp->ValidatePlan(&error_stream)`. -/
  validatePlan : Bool
  /-- Value of `user_expression_plan->GetFunctionStackPointer()`. -/
  functionStackPointer : Nat
  /-- Value of `HostInfo::GetPageSize()`. -/
  pageSize : Nat
  /-- Whether `exe_ctx.GetProcessPtr() != nullptr`. -/
  hasProcessPtr : Bool
  /-- result of `exe_ctx.GetProcessRef().RunThreadPlan(...)` -/
  runThreadPlanResult : ExpressionResults
  /-- whether `m_dematerializer_sp->Dematerialize(...)` leaves
  `dematerialize_error.Success()` -/
  dematerializeSuccess : Bool
deriving DecidableEq

/-- The options read here: `options.DoesUnwindOnError()` and
`options.DoesIgnoreBreakpoints()`. -/
structure EvaluateExpressionOptions where
  unwind_on_error : Bool
  ignore_breakpoints : Bool
deriving DecidableEq

/-- Subtraction of `lldb::addr_t` (uint64) values, wrapping mod `2^64`. -/
def u64sub (a b : Nat) : Nat := (a % 2 ^ 64 + (2 ^ 64 - b % 2 ^ 64)) % 2 ^ 64

/-- Addition of `lldb::addr_t` (uint64) values, wrapping mod `2^64`. -/
def u64add (a b : Nat) : Nat := (a + b) % 2 ^ 64

/-- The allocation policy picked for the materialized struct:
`m_can_interpret ? eAllocationPolicyHostOnly : eAllocationPolicyMirror`. -/
def structPolicy (s : ExprState) : AllocationPolicy :=
  if s.m_can_interpret then AllocationPolicy.eAllocationPolicyHostOnly
  else AllocationPolicy.eAllocationPolicyMirror

/-- Result of `PrepareToExecuteJITExpression`: the returned `bool`, the
`struct_address` out-parameter, the updated member state, the trace, and the
messages printed to `error_stream`. -/
structure PrepareResult where
  ok : Bool
  struct_address : Nat
  state : ExprState
  events : List Event
  msgs : List Msg
deriving DecidableEq

/-- Tail of `PrepareToExecuteJITExpression` from
`m_dematerializer_sp = m_materializer_ap->Materialize(...)` on
(source lines 337-346). -/
def prepareMaterialize (env : Env) (s : ExprState) (struct_address : Nat)
    (events : List Event) (msgs : List Msg) : PrepareResult :=
  let events := events ++ [Event.materializeEv struct_address]
  if env.materializeSuccess then
    { ok := true, struct_address := struct_address,
      state := { s with m_dematerializer_sp := true }, events := events, msgs := msgs }
  else
    { ok := false, struct_address := struct_address,
      state := { s with m_dematerializer_sp := false }, events := events,
      msgs := msgs ++ [Msg.couldNotMaterialize] }

/-- Tail of `PrepareToExecuteJITExpression` from
`if (m_can_interpret && m_stack_frame_bottom == LLDB_INVALID_ADDRESS)` on
(source lines 318-346): the interpreter stack-frame allocation, then
materialization.  `m_stack_frame_top` is assigned before the allocation error
is checked, exactly as in the source. -/
def prepareStackAndMaterialize (env : Env) (s : ExprState) (struct_address : Nat)
    (events : List Event) (msgs : List Msg) : PrepareResult :=
  if s.m_can_interpret ∧ s.m_stack_frame_bottom = LLDB_INVALID_ADDRESS then
    let stack_frame_size : Nat := 512 * 1024
    let events := events ++
      [Event.mallocStackEv stack_frame_size 8 AllocationPolicy.eAllocationPolicyHostOnly]
    match env.stackMalloc with
    | none =>
      { ok := false, struct_address := struct_address,
        state := { s with m_stack_frame_bottom := LLDB_INVALID_ADDRESS,
                          m_stack_frame_top := u64add LLDB_INVALID_ADDRESS stack_frame_size },
        events := events, msgs := msgs ++ [Msg.couldNotAllocateStackFrame] }
    | some addr =>
      prepareMaterialize env
        { s with m_stack_frame_bottom := addr,
                 m_stack_frame_top := u64add addr stack_frame_size }
        struct_address events msgs
  else
    prepareMaterialize env s struct_address events msgs

/-- Model of `LLVMUserExpression::PrepareToExecuteJITExpression` (source lines
282-349).
`struct_address` is the in/out reference parameter (left unchanged on the paths
that never assign it). -/
def PrepareToExecuteJITExpression (env : Env) (s : ExprState) (struct_address : Nat) :
    PrepareResult :=
  if ¬ env.lockAndCheckContext then
    { ok := false, struct_address := struct_address, state := s, events := [],
      msgs := [Msg.contextChanged] }
  else if s.m_jit_start_addr ≠ LLDB_INVALID_ADDRESS ∨ s.m_can_interpret then
    if s.m_materialized_address = LLDB_INVALID_ADDRESS then
      let events := [Event.mallocStructEv env.structByteSize env.structAlignment
        (structPolicy s)]
      match env.structMalloc with
      | none =>
        { ok := false, struct_address := struct_address,
          state := { s with m_materialized_address := LLDB_INVALID_ADDRESS },
          events := events, msgs := [Msg.couldNotAllocateStruct] }
      | some addr =>
        let s := { s with m_materialized_address := addr }
        prepareStackAndMaterialize env s s.m_materialized_address events []
    else
      prepareStackAndMaterialize env s s.m_materialized_address [] []
  else
    { ok := true, struct_address := struct_address, state := s, events := [], msgs := [] }

/-- Result of `FinalizeJITExecution`: the returned `bool`, the updated member
state, the trace, and the messages printed to `error_stream`. -/
structure FinalizeResult where
  ok : Bool
  state : ExprState
  events : List Event
  msgs : List Msg
deriving DecidableEq

/-- Model of `LLVMUserExpression::FinalizeJITExecution` (source lines 245-280).  On
success `m_dematerializer_sp.reset()` drops the handle; on failure the handle
is left in place and `false` is returned with an explicit message. -/
def FinalizeJITExecution (env : Env) (s : ExprState)
    (function_stack_bottom function_stack_top : Nat) : FinalizeResult :=
  if ¬ s.m_dematerializer_sp then
    { ok := false, state := s, events := [], msgs := [Msg.noDematerializerPresent] }
  else
    let events := [Event.dematerializeEv function_stack_bottom function_stack_top]
    if ¬ env.dematerializeSuccess then
      { ok := false, state := s, events := events,
        msgs := [Msg.couldNotApplySideEffects] }
    else
      { ok := true, state := { s with m_dematerializer_sp := false },
        events := events, msgs := [] }

/-- Result of `Execute`: the `lldb::ExpressionResults` return value, the
updated member state, the trace, and the messages printed to `error_stream`. -/
structure ExecuteResult where
  result : ExpressionResults
  state : ExprState
  events : List Event
  msgs : List Msg
deriving DecidableEq

/-- Tail of `Execute` (source lines 229-236): call `FinalizeJITExecution`,
returning `eExpressionCompleted` on success and
`eExpressionResultUnavailable` on failure. -/
def executeFinalize (env : Env) (s : ExprState)
    (function_stack_bottom function_stack_top : Nat)
    (events : List Event) (msgs : List Msg) : ExecuteResult :=
  let f := FinalizeJITExecution env s function_stack_bottom function_stack_top
  if f.ok then
    { result := ExpressionResults.eExpressionCompleted, state := f.state,
      events := events ++ f.events, msgs := msgs ++ f.msgs }
  else
    { result := ExpressionResults.eExpressionResultUnavailable, state := f.state,
      events := events ++ f.events, msgs := msgs ++ f.msgs }

/-- The `m_can_interpret` branch of `Execute` (source lines 99-133), followed
by the shared finalization tail.  `function_stack_bottom`/`top` are the
member stack-frame bounds. -/
def executeInterpret (env : Env) (s : ExprState) (struct_address : Nat)
    (events : List Event) (msgs : List Msg) : ExecuteResult :=
  if ¬ (env.modulePresent ∧ env.functionPresent) then
    { result := ExpressionResults.eExpressionSetupError, state := s, events := events,
      msgs := msgs ++ [Msg.supposedToInterpretNothingThere] }
  else if ¬ env.addInitialArguments then
    { result := ExpressionResults.eExpressionSetupError, state := s, events := events,
      msgs := msgs ++ [Msg.erroredOutAddInitialArguments] }
  else
    let function_stack_bottom := s.m_stack_frame_bottom
    let function_stack_top := s.m_stack_frame_top
    let events := events ++ [Event.interpretEv struct_address]
    if ¬ env.interpretSuccess then
      { result := ExpressionResults.eExpressionDiscarded, state := s, events := events,
        msgs := msgs ++ [Msg.supposedToInterpretButFailed] }
    else
      executeFinalize env s function_stack_bottom function_stack_top events msgs

/-- Classification of the `RunThreadPlan` outcome (source lines 183-236): the
interrupted/breakpoint handling, the debug halt, verbatim propagation of any
other non-`Completed` outcome, and the finalization tail on `Completed`. -/
def classifyExecutionResult (env : Env) (options : EvaluateExpressionOptions)
    (s : ExprState) (function_stack_bottom function_stack_top : Nat)
    (events : List Event) (msgs : List Msg) : ExecuteResult :=
  if env.runThreadPlanResult = ExpressionResults.eExpressionInterrupted ∨
     env.runThreadPlanResult = ExpressionResults.eExpressionHitBreakpoint then
    if (env.runThreadPlanResult = ExpressionResults.eExpressionInterrupted ∧
          options.unwind_on_error) ∨
       (env.runThreadPlanResult = ExpressionResults.eExpressionHitBreakpoint ∧
          options.ignore_breakpoints) then
      { result := env.runThreadPlanResult, state := s, events := events,
        msgs := msgs ++ [Msg.executionWasInterrupted, Msg.processReturnedToState] }
    else
      { result := env.runThreadPlanResult, state := s,
        events := events ++
          (if env.runThreadPlanResult = ExpressionResults.eExpressionHitBreakpoint
            then [Event.transferExpressionOwnershipEv] else []),
        msgs := msgs ++ [Msg.executionWasInterrupted, Msg.processLeftAtInterruption] }
  else if env.runThreadPlanResult = ExpressionResults.eExpressionStoppedForDebug then
    { result := env.runThreadPlanResult, state := s, events := events,
      msgs := msgs ++ [Msg.executionHaltedForDebug] }
  else if env.runThreadPlanResult ≠ ExpressionResults.eExpressionCompleted then
    { result := env.runThreadPlanResult, state := s, events := events,
      msgs := msgs ++ [Msg.couldNotExecuteFunction] }
  else
    executeFinalize env s function_stack_bottom function_stack_top events msgs

/-- The in-process (JIT) branch of `Execute` (source lines 134-227), followed
by the shared finalization tail. -/
def executeJIT (env : Env) (options : EvaluateExpressionOptions) (s : ExprState)
    (struct_address : Nat) (events : List Event) (msgs : List Msg) : ExecuteResult :=
  if ¬ env.hasThreadScope then
    { result := ExpressionResults.eExpressionSetupError, state := s, events := events,
      msgs := msgs ++ [Msg.noThreadSelected] }
  else if ¬ env.addInitialArguments then
    { result := ExpressionResults.eExpressionSetupError, state := s, events := events,
      msgs := msgs ++ [Msg.erroredOutAddInitialArguments] }
  else
    let events := events ++ [Event.buildCallPlanEv struct_address]
    if ¬ env.validatePlan then
      { result := ExpressionResults.eExpressionSetupError, state := s, events := events,
        msgs := msgs }
    else
      let function_stack_pointer := env.functionStackPointer
      let function_stack_bottom := u64sub function_stack_pointer env.pageSize
      let function_stack_top := function_stack_pointer
      let events := events ++
        (if env.hasProcessPtr then [Event.setRunningUserExpressionEv true] else []) ++
        [Event.runThreadPlanEv] ++
        (if env.hasProcessPtr then [Event.setRunningUserExpressionEv false] else [])
      classifyExecutionResult env options s function_stack_bottom
        function_stack_top events msgs

/-- Model of `LLVMUserExpression::Execute` (source lines 78-243). -/
def Execute (env : Env) (options : EvaluateExpressionOptions) (s : ExprState) :
    ExecuteResult :=
  if s.m_jit_start_addr ≠ LLDB_INVALID_ADDRESS ∨ s.m_can_interpret then
    let p := PrepareToExecuteJITExpression env s LLDB_INVALID_ADDRESS
    if ¬ p.ok then
      { result := ExpressionResults.eExpressionSetupError, state := p.state,
        events := p.events, msgs := p.msgs ++ [Msg.erroredOutPrepare] }
    else if p.state.m_can_interpret then
      executeInterpret env p.state p.struct_address p.events p.msgs
    else
      executeJIT env options p.state p.struct_address p.events p.msgs
  else
    { result := ExpressionResults.eExpressionSetupError, state := s, events := [],
      msgs := [Msg.noJITCompiledFunction] }

/-! ## Trace classification helpers and concrete instances -/

/-- Whether an event is the struct allocation call. -/
def isStructMallocEv : Event → Bool
  | Event.mallocStructEv _ _ _ => true
  | _ => false

/-- Whether an event is the interpreter invocation. -/
def isInterpretEv : Event → Bool
  | Event.interpretEv _ => true
  | _ => false

/-- Whether an event is the thread-plan construction. -/
def isBuildCallPlanEv : Event → Bool
  | Event.buildCallPlanEv _ => true
  | _ => false

/-- Whether an event is the dematerialization call. -/
def isDematerializeEv : Event → Bool
  | Event.dematerializeEv _ _ => true
  | _ => false

/-- Whether an event is one of the calls `PrepareToExecuteJITExpression` can
make (allocation or materialization). -/
def isPrepareEv : Event → Bool
  | Event.mallocStructEv _ _ _ => true
  | Event.mallocStackEv _ _ _ => true
  | Event.materializeEv _ => true
  | _ => false

/-- A collaborator oracle in which every external call succeeds. -/
def envAllOk : Env :=
  { lockAndCheckContext := true
    structByteSize := 16
    structAlignment := 8
    structMalloc := some 4096
    stackMalloc := some 65536
    materializeSuccess := true
    modulePresent := true
    functionPresent := true
    addInitialArguments := true
    interpretSuccess := true
    hasThreadScope := true
    validatePlan := true
    functionStackPointer := 1048576
    pageSize := 4096
    hasProcessPtr := true
    runThreadPlanResult := ExpressionResults.eExpressionCompleted
    dematerializeSuccess := true }

/-- Options with neither unwind-on-error nor ignore-breakpoints. -/
def optsNone : EvaluateExpressionOptions :=
  { unwind_on_error := false, ignore_breakpoints := false }

/-- A freshly constructed state with a JIT entry address (in-process path). -/
def sJit : ExprState :=
  { m_jit_start_addr := 8192
    m_can_interpret := false
    m_materialized_address := LLDB_INVALID_ADDRESS
    m_stack_frame_bottom := LLDB_INVALID_ADDRESS
    m_stack_frame_top := LLDB_INVALID_ADDRESS
    m_dematerializer_sp := false }

/-- A freshly constructed state on the interpretation path. -/
def sInterp : ExprState :=
  { sJit with m_jit_start_addr := LLDB_INVALID_ADDRESS, m_can_interpret := true }

/-- A state with neither a JIT entry address nor interpretability. -/
def sNone : ExprState := { sJit with m_jit_start_addr := LLDB_INVALID_ADDRESS }

/-! ## Helper lemmas about `PrepareToExecuteJITExpression` -/

theorem prepareMaterialize_can_interpret (env : Env) (s : ExprState) (a : Nat)
    (ev : List Event) (ms : List Msg) :
    (prepareMaterialize env s a ev ms).state.m_can_interpret = s.m_can_interpret := by
  unfold prepareMaterialize
  cases env.materializeSuccess <;> simp

theorem prepareStackAndMaterialize_can_interpret (env : Env) (s : ExprState) (a : Nat)
    (ev : List Event) (ms : List Msg) :
    (prepareStackAndMaterialize env s a ev ms).state.m_can_interpret =
      s.m_can_interpret := by
  unfold prepareStackAndMaterialize
  split
  · split
    · simp
    · rw [prepareMaterialize_can_interpret]
  · rw [prepareMaterialize_can_interpret]

theorem prepare_can_interpret (env : Env) (s : ExprState) (a : Nat) :
    (PrepareToExecuteJITExpression env s a).state.m_can_interpret =
      s.m_can_interpret := by
  unfold PrepareToExecuteJITExpression
  split
  · simp
  · split
    · split
      · split
        · simp
        · rw [prepareStackAndMaterialize_can_interpret]
      · rw [prepareStackAndMaterialize_can_interpret]
    · simp

theorem prepareMaterialize_ok_dematerializer (env : Env) (s : ExprState) (a : Nat)
    (ev : List Event) (ms : List Msg)
    (h : (prepareMaterialize env s a ev ms).ok = true) :
    (prepareMaterialize env s a ev ms).state.m_dematerializer_sp = true := by
  unfold prepareMaterialize at *
  cases hm : env.materializeSuccess <;> simp_all

theorem prepareStackAndMaterialize_ok_dematerializer (env : Env) (s : ExprState)
    (a : Nat) (ev : List Event) (ms : List Msg)
    (h : (prepareStackAndMaterialize env s a ev ms).ok = true) :
    (prepareStackAndMaterialize env s a ev ms).state.m_dematerializer_sp = true := by
  revert h
  unfold prepareStackAndMaterialize
  repeat' split
  all_goals intro h
  all_goals first
    | exact prepareMaterialize_ok_dematerializer _ _ _ _ _ h
    | simp_all

theorem prepare_ok_dematerializer (env : Env) (s : ExprState) (a : Nat)
    (helig : s.m_jit_start_addr ≠ LLDB_INVALID_ADDRESS ∨ s.m_can_interpret = true)
    (h : (PrepareToExecuteJITExpression env s a).ok = true) :
    (PrepareToExecuteJITExpression env s a).state.m_dematerializer_sp = true := by
  revert h
  unfold PrepareToExecuteJITExpression
  repeat' split
  all_goals intro h
  all_goals first
    | exact prepareStackAndMaterialize_ok_dematerializer _ _ _ _ _ h
    | simp_all

theorem prepareMaterialize_events (env : Env) (s : ExprState) (a : Nat)
    (ev : List Event) (ms : List Msg) :
    (prepareMaterialize env s a ev ms).events = ev ++ [Event.materializeEv a] := by
  unfold prepareMaterialize
  cases env.materializeSuccess <;> simp

theorem prepareStackAndMaterialize_events_all (env : Env) (s : ExprState) (a : Nat)
    (ev : List Event) (ms : List Msg) (h : ev.all isPrepareEv = true) :
    (prepareStackAndMaterialize env s a ev ms).events.all isPrepareEv = true := by
  unfold prepareStackAndMaterialize
  split
  · split
    · simp_all [isPrepareEv]
    · rw [prepareMaterialize_events]; simp_all [isPrepareEv]
  · rw [prepareMaterialize_events]; simp_all [isPrepareEv]

/-- Every event `PrepareToExecuteJITExpression` records is an allocation or
materialization call. -/
theorem prepare_events_all (env : Env) (s : ExprState) (a : Nat) :
    (PrepareToExecuteJITExpression env s a).events.all isPrepareEv = true := by
  unfold PrepareToExecuteJITExpression
  split
  · simp
  · split
    · split
      · split
        · simp [isPrepareEv]
        · exact prepareStackAndMaterialize_events_all _ _ _ _ _ (by simp [isPrepareEv])
      · exact prepareStackAndMaterialize_events_all _ _ _ _ _ (by simp)
    · simp

theorem prepareMaterialize_materialized_address (env : Env) (s : ExprState)
    (a : Nat) (ev : List Event) (ms : List Msg) :
    (prepareMaterialize env s a ev ms).state.m_materialized_address =
      s.m_materialized_address := by
  unfold prepareMaterialize
  cases env.materializeSuccess <;> simp

theorem prepareStackAndMaterialize_materialized_address (env : Env) (s : ExprState)
    (a : Nat) (ev : List Event) (ms : List Msg) :
    (prepareStackAndMaterialize env s a ev ms).state.m_materialized_address =
      s.m_materialized_address := by
  unfold prepareStackAndMaterialize
  repeat' split
  all_goals simp [prepareMaterialize_materialized_address]

theorem prepareMaterialize_struct_address (env : Env) (s : ExprState)
    (a : Nat) (ev : List Event) (ms : List Msg) :
    (prepareMaterialize env s a ev ms).struct_address = a := by
  unfold prepareMaterialize
  cases env.materializeSuccess <;> simp

theorem prepareStackAndMaterialize_struct_address (env : Env) (s : ExprState)
    (a : Nat) (ev : List Event) (ms : List Msg) :
    (prepareStackAndMaterialize env s a ev ms).struct_address = a := by
  unfold prepareStackAndMaterialize
  repeat' split
  all_goals simp [prepareMaterialize_struct_address]

theorem prepareStackAndMaterialize_structMallocs (env : Env) (s : ExprState)
    (a : Nat) (ev : List Event) (ms : List Msg) :
    (prepareStackAndMaterialize env s a ev ms).events.filter isStructMallocEv =
      ev.filter isStructMallocEv := by
  unfold prepareStackAndMaterialize
  repeat' split
  all_goals simp [prepareMaterialize_events, isStructMallocEv, List.filter_append]

/-- The struct allocation call happens exactly when the context lock holds, the
expression is runnable, and `m_materialized_address` is still invalid — and
then exactly once, with the policy picked from `m_can_interpret`. -/
theorem prepare_structMallocs (env : Env) (s : ExprState) (a : Nat) :
    (PrepareToExecuteJITExpression env s a).events.filter isStructMallocEv =
      if env.lockAndCheckContext = true ∧
          (s.m_jit_start_addr ≠ LLDB_INVALID_ADDRESS ∨ s.m_can_interpret = true) ∧
          s.m_materialized_address = LLDB_INVALID_ADDRESS then
        [Event.mallocStructEv env.structByteSize env.structAlignment (structPolicy s)]
      else [] := by
  unfold PrepareToExecuteJITExpression
  repeat' split
  all_goals
    simp_all [prepareStackAndMaterialize_structMallocs, isStructMallocEv,
      List.filter_append]

theorem prepareEv_not_interpret (e : Event) (h : isPrepareEv e = true) :
    isInterpretEv e = false := by
  cases e <;> simp_all [isPrepareEv, isInterpretEv]

theorem prepareEv_not_buildCallPlan (e : Event) (h : isPrepareEv e = true) :
    isBuildCallPlanEv e = false := by
  cases e <;> simp_all [isPrepareEv, isBuildCallPlanEv]

theorem prepareEv_not_dematerialize (e : Event) (h : isPrepareEv e = true) :
    isDematerializeEv e = false := by
  cases e <;> simp_all [isPrepareEv, isDematerializeEv]

theorem filter_nil_of_all (l : List Event) (p : Event → Bool)
    (hall : l.all isPrepareEv = true)
    (hp : ∀ e, isPrepareEv e = true → p e = false) :
    l.filter p = [] := by
  induction l with
  | nil => rfl
  | cons x xs ih =>
    simp only [List.all_cons, Bool.and_eq_true] at hall
    simp [List.filter_cons, hp x hall.1, ih hall.2]

theorem prepare_no_runThreadPlan (env : Env) (s : ExprState) (a : Nat) :
    Event.runThreadPlanEv ∉ (PrepareToExecuteJITExpression env s a).events := by
  intro hmem
  have := List.all_eq_true.mp (prepare_events_all env s a) _ hmem
  simp [isPrepareEv] at this

/-! ## Reduction of `Execute` past the preparation step -/

theorem execute_eq_prepare_fail (env : Env) (options : EvaluateExpressionOptions)
    (s : ExprState)
    (helig : s.m_jit_start_addr ≠ LLDB_INVALID_ADDRESS ∨ s.m_can_interpret = true)
    (hnok : (PrepareToExecuteJITExpression env s LLDB_INVALID_ADDRESS).ok = false) :
    Execute env options s =
      { result := ExpressionResults.eExpressionSetupError,
        state := (PrepareToExecuteJITExpression env s LLDB_INVALID_ADDRESS).state,
        events := (PrepareToExecuteJITExpression env s LLDB_INVALID_ADDRESS).events,
        msgs := (PrepareToExecuteJITExpression env s LLDB_INVALID_ADDRESS).msgs ++
          [Msg.erroredOutPrepare] } := by
  unfold Execute
  rw [if_pos helig]
  simp [hnok]

theorem execute_eq_executeInterpret (env : Env) (options : EvaluateExpressionOptions)
    (s : ExprState)
    (hok : (PrepareToExecuteJITExpression env s LLDB_INVALID_ADDRESS).ok = true)
    (hci : s.m_can_interpret = true) :
    Execute env options s =
      executeInterpret env
        (PrepareToExecuteJITExpression env s LLDB_INVALID_ADDRESS).state
        (PrepareToExecuteJITExpression env s LLDB_INVALID_ADDRESS).struct_address
        (PrepareToExecuteJITExpression env s LLDB_INVALID_ADDRESS).events
        (PrepareToExecuteJITExpression env s LLDB_INVALID_ADDRESS).msgs := by
  unfold Execute
  rw [if_pos (Or.inr hci)]
  simp [hok, prepare_can_interpret, hci]

theorem execute_eq_executeJIT (env : Env) (options : EvaluateExpressionOptions)
    (s : ExprState)
    (hjit : s.m_jit_start_addr ≠ LLDB_INVALID_ADDRESS)
    (hok : (PrepareToExecuteJITExpression env s LLDB_INVALID_ADDRESS).ok = true)
    (hci : s.m_can_interpret = false) :
    Execute env options s =
      executeJIT env options
        (PrepareToExecuteJITExpression env s LLDB_INVALID_ADDRESS).state
        (PrepareToExecuteJITExpression env s LLDB_INVALID_ADDRESS).struct_address
        (PrepareToExecuteJITExpression env s LLDB_INVALID_ADDRESS).events
        (PrepareToExecuteJITExpression env s LLDB_INVALID_ADDRESS).msgs := by
  unfold Execute
  rw [if_pos (Or.inl hjit)]
  simp [hok, prepare_can_interpret, hci]

/-! ## Further concrete instances used by the witnesses -/

/-- The all-ok oracle with a failing context re-validation. -/
def envCtxFail : Env := { envAllOk with lockAndCheckContext := false }

/-- The all-ok oracle with a failing dematerialization. -/
def envDematFail : Env := { envAllOk with dematerializeSuccess := false }

/-- The all-ok oracle whose thread plan run stops at a breakpoint. -/
def envHitBp : Env :=
  { envAllOk with runThreadPlanResult := ExpressionResults.eExpressionHitBreakpoint }

/-- The all-ok oracle with no thread in the execution context. -/
def envNoThread : Env := { envAllOk with hasThreadScope := false }

/-- The all-ok oracle with a failing interpreter run. -/
def envInterpFail : Env := { envAllOk with interpretSuccess := false }

/-- A state already holding a live dematerializer. -/
def sDemat : ExprState := { sJit with m_dematerializer_sp := true }

/-- An in-process state whose ArgumentStruct was already allocated. -/
def sPrepared : ExprState := { sJit with m_materialized_address := 4096 }

/-! ## The claims -/

/-- C10: when the compiled unit has no machine-code entry address
(`m_jit_start_addr == LLDB_INVALID_ADDRESS`) and `m_can_interpret` is false,
`Execute` returns `eExpressionSetupError` immediately: the member state is
untouched and no collaborator call (preparation, allocation, materialization
or execution of any kind) is recorded. -/
theorem execute_no_jit_function_setup_error (env : Env)
    (options : EvaluateExpressionOptions) (s : ExprState)
    (h1 : s.m_jit_start_addr = LLDB_INVALID_ADDRESS)
    (h2 : s.m_can_interpret = false) :
    (Execute env options s).result = ExpressionResults.eExpressionSetupError ∧
    (Execute env options s).state = s ∧
    (Execute env options s).events = [] ∧
    (Execute env options s).msgs = [Msg.noJITCompiledFunction] := by
  unfold Execute
  simp [h1, h2]

/-- Witness for `execute_no_jit_function_setup_error` at a concrete input. -/
theorem execute_no_jit_function_setup_error_witness :
    (Execute envAllOk optsNone sNone).result = ExpressionResults.eExpressionSetupError ∧
    (Execute envAllOk optsNone sNone).state = sNone ∧
    (Execute envAllOk optsNone sNone).events = [] ∧
    (Execute envAllOk optsNone sNone).msgs = [Msg.noJITCompiledFunction] :=
  execute_no_jit_function_setup_error envAllOk optsNone sNone (by rfl) (by rfl)

/-- C4: when the execution-context snapshot fails re-validation
(`LockAndCheckContext` returns false), preparation fails with no observable
side effects — the member state (including `m_materialized_address`, the
simulated stack bounds and `m_dematerializer_sp`) is unchanged, no collaborator
call is recorded, the `struct_address` out-parameter is untouched — and
`Execute` returns `eExpressionSetupError` with the state still unchanged. -/
theorem execute_stale_context_setup_error (env : Env)
    (options : EvaluateExpressionOptions) (s : ExprState) (a : Nat)
    (h : env.lockAndCheckContext = false) :
    (PrepareToExecuteJITExpression env s a).ok = false ∧
    (PrepareToExecuteJITExpression env s a).state = s ∧
    (PrepareToExecuteJITExpression env s a).events = [] ∧
    (PrepareToExecuteJITExpression env s a).struct_address = a ∧
    (Execute env options s).result = ExpressionResults.eExpressionSetupError ∧
    (Execute env options s).state = s := by
  have hp : ∀ b : Nat, PrepareToExecuteJITExpression env s b =
      { ok := false, struct_address := b, state := s, events := [],
        msgs := [Msg.contextChanged] } := by
    intro b
    unfold PrepareToExecuteJITExpression
    simp [h]
  refine ⟨by rw [hp], by rw [hp], by rw [hp], by rw [hp], ?_, ?_⟩
  · unfold Execute
    split
    · simp [hp]
    · simp
  · unfold Execute
    split
    · simp [hp]
    · simp

/-- Witness for `execute_stale_context_setup_error` at a concrete input. -/
theorem execute_stale_context_setup_error_witness :
    (PrepareToExecuteJITExpression envCtxFail sJit 0).ok = false ∧
    (PrepareToExecuteJITExpression envCtxFail sJit 0).state = sJit ∧
    (PrepareToExecuteJITExpression envCtxFail sJit 0).events = [] ∧
    (PrepareToExecuteJITExpression envCtxFail sJit 0).struct_address = 0 ∧
    (Execute envCtxFail optsNone sJit).result =
      ExpressionResults.eExpressionSetupError ∧
    (Execute envCtxFail optsNone sJit).state = sJit :=
  execute_stale_context_setup_error envCtxFail optsNone sJit 0 (by rfl)

/-- C6: finalization consumes the dematerializer handle: with no live handle
`FinalizeJITExecution` fails fast with the explicit no-dematerializer message
and never calls `Dematerialize`; after a successful finalization the handle is
discarded, so a second finalization attempt fails with that same explicit
error — it does not silently no-op over stale data. -/
theorem finalize_handle_single_use (env env2 : Env) (s : ExprState)
    (b t b2 t2 : Nat) :
    (s.m_dematerializer_sp = false →
      (FinalizeJITExecution env s b t).ok = false ∧
      (FinalizeJITExecution env s b t).events = [] ∧
      (FinalizeJITExecution env s b t).msgs = [Msg.noDematerializerPresent]) ∧
    ((FinalizeJITExecution env s b t).ok = true →
      (FinalizeJITExecution env s b t).state.m_dematerializer_sp = false ∧
      (FinalizeJITExecution env2 (FinalizeJITExecution env s b t).state b2 t2).ok
          = false ∧
      (FinalizeJITExecution env2 (FinalizeJITExecution env s b t).state b2 t2).events
          = [] ∧
      (FinalizeJITExecution env2 (FinalizeJITExecution env s b t).state b2 t2).msgs
          = [Msg.noDematerializerPresent]) := by
  cases hd : s.m_dematerializer_sp <;> cases hm : env.dematerializeSuccess <;>
    simp_all [FinalizeJITExecution]

/-- Witness for `finalize_handle_single_use` at a concrete input: finalizing a
live handle succeeds and consumes it, and the immediate second attempt fails
with the explicit error. -/
theorem finalize_handle_single_use_witness :
    (FinalizeJITExecution envAllOk sDemat 0 0).state.m_dematerializer_sp = false ∧
    (FinalizeJITExecution envAllOk
        (FinalizeJITExecution envAllOk sDemat 0 0).state 0 0).ok = false ∧
    (FinalizeJITExecution envAllOk
        (FinalizeJITExecution envAllOk sDemat 0 0).state 0 0).events = [] ∧
    (FinalizeJITExecution envAllOk
        (FinalizeJITExecution envAllOk sDemat 0 0).state 0 0).msgs =
      [Msg.noDematerializerPresent] :=
  (finalize_handle_single_use envAllOk envAllOk sDemat 0 0 0 0).2 (by decide)

/-- C7: the ArgumentStruct is allocated only while `m_materialized_address` is
still `LLDB_INVALID_ADDRESS`: a preparation that finds a valid address leaves
it unchanged and records no struct allocation (so later preparations reuse the
address), any recorded struct allocation implies the address was still
invalid, and an allocation that succeeds at `addr` stores `addr` and hands it
out as the `struct_address`. -/
theorem prepare_struct_alloc_once (env : Env) (s : ExprState) (a addr : Nat) :
    (s.m_materialized_address ≠ LLDB_INVALID_ADDRESS →
      (PrepareToExecuteJITExpression env s a).state.m_materialized_address =
        s.m_materialized_address ∧
      (PrepareToExecuteJITExpression env s a).events.filter isStructMallocEv
        = []) ∧
    ((PrepareToExecuteJITExpression env s a).events.filter isStructMallocEv ≠ [] →
      s.m_materialized_address = LLDB_INVALID_ADDRESS) ∧
    (s.m_materialized_address = LLDB_INVALID_ADDRESS →
      (s.m_jit_start_addr ≠ LLDB_INVALID_ADDRESS ∨ s.m_can_interpret = true) →
      env.lockAndCheckContext = true →
      env.structMalloc = some addr →
      (PrepareToExecuteJITExpression env s a).state.m_materialized_address = addr ∧
      (PrepareToExecuteJITExpression env s a).struct_address = addr) := by
  refine ⟨?_, ?_, ?_⟩
  · intro hvalid
    constructor
    · unfold PrepareToExecuteJITExpression
      repeat' split
      all_goals simp_all [prepareStackAndMaterialize_materialized_address]
    · rw [prepare_structMallocs]
      simp [hvalid]
  · intro hne
    rw [prepare_structMallocs] at hne
    by_cases hv : s.m_materialized_address = LLDB_INVALID_ADDRESS
    · exact hv
    · simp [hv] at hne
  · intro hinv helig hctx hsm
    unfold PrepareToExecuteJITExpression
    rw [if_neg (by simp [hctx]), if_pos helig, if_pos hinv, hsm]
    constructor
    · simp [prepareStackAndMaterialize_materialized_address]
    · simp [prepareStackAndMaterialize_struct_address]

/-- Witness for `prepare_struct_alloc_once` at a concrete input: a preparation
against an already-valid address keeps it and performs no allocation. -/
theorem prepare_struct_alloc_once_witness :
    (PrepareToExecuteJITExpression envAllOk sPrepared 0).state.m_materialized_address
        = sPrepared.m_materialized_address ∧
    (PrepareToExecuteJITExpression envAllOk sPrepared 0).events.filter
        isStructMallocEv = [] :=
  (prepare_struct_alloc_once envAllOk sPrepared 0 4096).1 (by decide)

/-- C8: the allocation policy for the ArgumentStruct is derived once per
preparation from the `m_can_interpret` flag — host-only when interpretation
was chosen, mirrored when in-process execution was chosen — and the
preparation performs at most one struct allocation, always under exactly that
policy (never falling back to the other one). -/
theorem prepare_struct_policy_once (env : Env) (s : ExprState) (a : Nat) :
    (s.m_can_interpret = true →
      structPolicy s = AllocationPolicy.eAllocationPolicyHostOnly) ∧
    (s.m_can_interpret = false →
      structPolicy s = AllocationPolicy.eAllocationPolicyMirror) ∧
    ((PrepareToExecuteJITExpression env s a).events.filter isStructMallocEv = [] ∨
     (PrepareToExecuteJITExpression env s a).events.filter isStructMallocEv =
       [Event.mallocStructEv env.structByteSize env.structAlignment
         (structPolicy s)]) := by
  refine ⟨fun h => by simp [structPolicy, h], fun h => by simp [structPolicy, h], ?_⟩
  rw [prepare_structMallocs]
  split
  · exact Or.inr rfl
  · exact Or.inl rfl

/-- Witness for `prepare_struct_policy_once` at a concrete input: the
in-process state selects the mirrored policy, and the single allocation (if
any) carries it. -/
theorem prepare_struct_policy_once_witness :
    structPolicy sJit = AllocationPolicy.eAllocationPolicyMirror ∧
    ((PrepareToExecuteJITExpression envAllOk sJit 0).events.filter
        isStructMallocEv = [] ∨
     (PrepareToExecuteJITExpression envAllOk sJit 0).events.filter
        isStructMallocEv =
       [Event.mallocStructEv envAllOk.structByteSize envAllOk.structAlignment
         (structPolicy sJit)]) :=
  ⟨(prepare_struct_policy_once envAllOk sJit 0).2.1 (by rfl),
   (prepare_struct_policy_once envAllOk sJit 0).2.2⟩

/-- C3: on the interpretation path (`m_can_interpret` true), a missing module
or entry function makes `Execute` return `eExpressionSetupError` with the
interpreter never invoked; when module and function exist and the interpreter
is invoked but reports failure, `Execute` returns `eExpressionDiscarded`
(never `eExpressionSetupError`), with the interpreter call on the trace. -/
theorem execute_interpret_path_errors (env : Env)
    (options : EvaluateExpressionOptions) (s : ExprState)
    (hci : s.m_can_interpret = true) :
    (¬ (env.modulePresent = true ∧ env.functionPresent = true) →
      (Execute env options s).result = ExpressionResults.eExpressionSetupError ∧
      (Execute env options s).events.filter isInterpretEv = []) ∧
    ((PrepareToExecuteJITExpression env s LLDB_INVALID_ADDRESS).ok = true →
      env.modulePresent = true → env.functionPresent = true →
      env.addInitialArguments = true → env.interpretSuccess = false →
      (Execute env options s).result = ExpressionResults.eExpressionDiscarded ∧
      (Execute env options s).events.filter isInterpretEv ≠ []) := by
  have hfil := filter_nil_of_all
    (PrepareToExecuteJITExpression env s LLDB_INVALID_ADDRESS).events isInterpretEv
    (prepare_events_all env s LLDB_INVALID_ADDRESS) prepareEv_not_interpret
  constructor
  · intro hm
    cases hok : (PrepareToExecuteJITExpression env s LLDB_INVALID_ADDRESS).ok with
    | false =>
      rw [execute_eq_prepare_fail env options s (Or.inr hci) hok]
      exact ⟨rfl, hfil⟩
    | true =>
      rw [execute_eq_executeInterpret env options s hok hci]
      unfold executeInterpret
      rw [if_pos hm]
      exact ⟨rfl, hfil⟩
  · intro hok hm hf ha hi
    rw [execute_eq_executeInterpret env options s hok hci]
    unfold executeInterpret
    rw [if_neg (by simp [hm, hf]), if_neg (by simp [ha])]
    refine ⟨?_, ?_⟩ <;> simp [hi, List.filter_append, hfil, isInterpretEv]

/-- Witness for `execute_interpret_path_errors` at a concrete input: with a
failing interpreter run the outcome is `eExpressionDiscarded` and the
interpreter call is on the trace. -/
theorem execute_interpret_path_errors_witness :
    (Execute envInterpFail optsNone sInterp).result =
      ExpressionResults.eExpressionDiscarded ∧
    (Execute envInterpFail optsNone sInterp).events.filter isInterpretEv ≠ [] :=
  (execute_interpret_path_errors envInterpFail optsNone sInterp (by rfl)).2
    (by decide) (by rfl) (by rfl) (by rfl) (by rfl)

/-- C9: on the in-process path with no thread in the execution context,
`Execute` returns `eExpressionSetupError` carrying the no-thread-selected
message, no call plan is built and the thread plan is never run, and the
state `PrepareToExecuteJITExpression` established — including the live
dematerializer — is left exactly intact. -/
theorem execute_no_thread_setup_error (env : Env)
    (options : EvaluateExpressionOptions) (s : ExprState)
    (hjit : s.m_jit_start_addr ≠ LLDB_INVALID_ADDRESS)
    (hci : s.m_can_interpret = false)
    (hok : (PrepareToExecuteJITExpression env s LLDB_INVALID_ADDRESS).ok = true)
    (hthread : env.hasThreadScope = false) :
    (Execute env options s).result = ExpressionResults.eExpressionSetupError ∧
    Msg.noThreadSelected ∈ (Execute env options s).msgs ∧
    (Execute env options s).events.filter isBuildCallPlanEv = [] ∧
    Event.runThreadPlanEv ∉ (Execute env options s).events ∧
    (Execute env options s).state =
      (PrepareToExecuteJITExpression env s LLDB_INVALID_ADDRESS).state ∧
    (Execute env options s).state.m_dematerializer_sp = true := by
  have hfil := filter_nil_of_all
    (PrepareToExecuteJITExpression env s LLDB_INVALID_ADDRESS).events
    isBuildCallPlanEv
    (prepare_events_all env s LLDB_INVALID_ADDRESS) prepareEv_not_buildCallPlan
  have hdm := prepare_ok_dematerializer env s LLDB_INVALID_ADDRESS (Or.inl hjit) hok
  rw [execute_eq_executeJIT env options s hjit hok hci]
  unfold executeJIT
  rw [if_pos (by simp [hthread])]
  exact ⟨rfl, by simp, hfil, prepare_no_runThreadPlan env s _, rfl, hdm⟩

/-- Witness for `execute_no_thread_setup_error` at a concrete input. -/
theorem execute_no_thread_setup_error_witness :
    (Execute envNoThread optsNone sJit).result =
      ExpressionResults.eExpressionSetupError ∧
    Msg.noThreadSelected ∈ (Execute envNoThread optsNone sJit).msgs ∧
    (Execute envNoThread optsNone sJit).events.filter isBuildCallPlanEv = [] ∧
    Event.runThreadPlanEv ∉ (Execute envNoThread optsNone sJit).events ∧
    (Execute envNoThread optsNone sJit).state =
      (PrepareToExecuteJITExpression envNoThread sJit LLDB_INVALID_ADDRESS).state ∧
    (Execute envNoThread optsNone sJit).state.m_dematerializer_sp = true :=
  execute_no_thread_setup_error envNoThread optsNone sJit (by decide) (by rfl)
    (by decide) (by rfl)

theorem executeFinalize_events (env : Env) (s : ExprState) (b t : Nat)
    (ev : List Event) (ms : List Msg) :
    (executeFinalize env s b t ev ms).events =
      ev ++ (FinalizeJITExecution env s b t).events := by
  unfold executeFinalize
  cases h : (FinalizeJITExecution env s b t).ok <;> simp [h]

/-- Outcome classification only ever appends to the trace it is given. -/
theorem classify_events_extends (env : Env) (options : EvaluateExpressionOptions)
    (s : ExprState) (b t : Nat) (ev : List Event) (ms : List Msg) :
    ∃ tail, (classifyExecutionResult env options s b t ev ms).events = ev ++ tail := by
  unfold classifyExecutionResult
  by_cases h1 : env.runThreadPlanResult = ExpressionResults.eExpressionInterrupted ∨
      env.runThreadPlanResult = ExpressionResults.eExpressionHitBreakpoint
  · rw [if_pos h1]
    by_cases h2 : (env.runThreadPlanResult = ExpressionResults.eExpressionInterrupted ∧
          options.unwind_on_error = true) ∨
        (env.runThreadPlanResult = ExpressionResults.eExpressionHitBreakpoint ∧
          options.ignore_breakpoints = true)
    · rw [if_pos h2]
      exact ⟨[], by simp⟩
    · rw [if_neg h2]
      exact ⟨(if env.runThreadPlanResult = ExpressionResults.eExpressionHitBreakpoint
          then [Event.transferExpressionOwnershipEv] else []), rfl⟩
  · rw [if_neg h1]
    by_cases h3 : env.runThreadPlanResult = ExpressionResults.eExpressionStoppedForDebug
    · rw [if_pos h3]
      exact ⟨[], by simp⟩
    · rw [if_neg h3]
      by_cases h4 : env.runThreadPlanResult = ExpressionResults.eExpressionCompleted
      · rw [if_neg (by simp [h4])]
        exact ⟨(FinalizeJITExecution env s b t).events, executeFinalize_events _ _ _ _ _ _⟩
      · rw [if_pos h4]
        exact ⟨[], by simp⟩

/-- Past a validated call plan with a live process, the trace of the
in-process branch always starts with the call-plan construction followed by
the contiguous set-flag / run / clear-flag bracket. -/
theorem executeJIT_events_bracket (env : Env) (options : EvaluateExpressionOptions)
    (s : ExprState) (a : Nat) (ev : List Event) (ms : List Msg)
    (hthread : env.hasThreadScope = true)
    (hargs : env.addInitialArguments = true)
    (hplan : env.validatePlan = true)
    (hproc : env.hasProcessPtr = true) :
    ∃ tail, (executeJIT env options s a ev ms).events =
      (ev ++ [Event.buildCallPlanEv a]) ++
      ([Event.setRunningUserExpressionEv true, Event.runThreadPlanEv,
        Event.setRunningUserExpressionEv false] ++ tail) := by
  unfold executeJIT
  rw [if_neg (by simp [hthread]), if_neg (by simp [hargs]),
      if_neg (by simp [hplan])]
  simp only [hproc, reduceIte]
  obtain ⟨tail, htail⟩ := classify_events_extends env options s
    (u64sub env.functionStackPointer env.pageSize) env.functionStackPointer
    (((ev ++ [Event.buildCallPlanEv a]) ++ [Event.setRunningUserExpressionEv true])
      ++ [Event.runThreadPlanEv] ++ [Event.setRunningUserExpressionEv false]) ms
  exact ⟨tail, by rw [htail]; simp [List.append_assoc]⟩

/-- C5: on the in-process path, around every `RunThreadPlan` call with a live
process the trace contains the contiguous bracket
set-running-user-expression(true); run; set-running-user-expression(false):
the flag is set immediately before the resume-and-wait call and cleared
immediately after it returns, whatever outcome the run produces (including
every early-returning outcome branch). -/
theorem execute_running_flag_bracket (env : Env)
    (options : EvaluateExpressionOptions) (s : ExprState)
    (hjit : s.m_jit_start_addr ≠ LLDB_INVALID_ADDRESS)
    (hci : s.m_can_interpret = false)
    (hok : (PrepareToExecuteJITExpression env s LLDB_INVALID_ADDRESS).ok = true)
    (hthread : env.hasThreadScope = true)
    (hargs : env.addInitialArguments = true)
    (hplan : env.validatePlan = true)
    (hproc : env.hasProcessPtr = true) :
    ∃ l1 l2, (Execute env options s).events =
      l1 ++ [Event.setRunningUserExpressionEv true, Event.runThreadPlanEv,
             Event.setRunningUserExpressionEv false] ++ l2 := by
  rw [execute_eq_executeJIT env options s hjit hok hci]
  obtain ⟨tail, htail⟩ := executeJIT_events_bracket env options
    (PrepareToExecuteJITExpression env s LLDB_INVALID_ADDRESS).state
    (PrepareToExecuteJITExpression env s LLDB_INVALID_ADDRESS).struct_address
    (PrepareToExecuteJITExpression env s LLDB_INVALID_ADDRESS).events
    (PrepareToExecuteJITExpression env s LLDB_INVALID_ADDRESS).msgs
    hthread hargs hplan hproc
  exact ⟨(PrepareToExecuteJITExpression env s LLDB_INVALID_ADDRESS).events ++
      [Event.buildCallPlanEv
        (PrepareToExecuteJITExpression env s LLDB_INVALID_ADDRESS).struct_address],
    tail, by rw [htail]; simp [List.append_assoc]⟩

/-- Witness for `execute_running_flag_bracket` at a concrete input. -/
theorem execute_running_flag_bracket_witness :
    ∃ l1 l2, (Execute envAllOk optsNone sJit).events =
      l1 ++ [Event.setRunningUserExpressionEv true, Event.runThreadPlanEv,
             Event.setRunningUserExpressionEv false] ++ l2 :=
  execute_running_flag_bracket envAllOk optsNone sJit (by decide) (by rfl)
    (by decide) (by rfl) (by rfl) (by rfl) (by rfl)

/-- C2: when the in-process run stops with `Interrupted` or `HitBreakpoint`,
the outcome is returned verbatim and finalization is skipped (no
dematerialization call); on `HitBreakpoint` without ignore-breakpoints the
call plan's ownership is transferred (`TransferExpressionOwnership`) and the
caller is told the process was left at the interruption point; on
`Interrupted` under unwind-on-error or `HitBreakpoint` under
ignore-breakpoints the caller is told the process was returned to its
pre-call state. -/
theorem execute_interrupt_breakpoint_outcomes (env : Env)
    (options : EvaluateExpressionOptions) (s : ExprState)
    (hjit : s.m_jit_start_addr ≠ LLDB_INVALID_ADDRESS)
    (hci : s.m_can_interpret = false)
    (hok : (PrepareToExecuteJITExpression env s LLDB_INVALID_ADDRESS).ok = true)
    (hthread : env.hasThreadScope = true)
    (hargs : env.addInitialArguments = true)
    (hplan : env.validatePlan = true)
    (hr : env.runThreadPlanResult = ExpressionResults.eExpressionInterrupted ∨
          env.runThreadPlanResult = ExpressionResults.eExpressionHitBreakpoint) :
    (Execute env options s).result = env.runThreadPlanResult ∧
    (Execute env options s).events.filter isDematerializeEv = [] ∧
    ((env.runThreadPlanResult = ExpressionResults.eExpressionHitBreakpoint ∧
        options.ignore_breakpoints = false) →
      Event.transferExpressionOwnershipEv ∈ (Execute env options s).events ∧
      Msg.processLeftAtInterruption ∈ (Execute env options s).msgs) ∧
    (((env.runThreadPlanResult = ExpressionResults.eExpressionInterrupted ∧
         options.unwind_on_error = true) ∨
      (env.runThreadPlanResult = ExpressionResults.eExpressionHitBreakpoint ∧
         options.ignore_breakpoints = true)) →
      Msg.processReturnedToState ∈ (Execute env options s).msgs) := by
  have hfil := filter_nil_of_all
    (PrepareToExecuteJITExpression env s LLDB_INVALID_ADDRESS).events
    isDematerializeEv
    (prepare_events_all env s LLDB_INVALID_ADDRESS) prepareEv_not_dematerialize
  rw [execute_eq_executeJIT env options s hjit hok hci]
  unfold executeJIT classifyExecutionResult
  rcases hr with hr | hr <;>
    cases hu : options.unwind_on_error <;>
    cases hi : options.ignore_breakpoints <;>
    cases hp : env.hasProcessPtr <;>
    simp_all [isDematerializeEv, List.filter_append]

/-- Witness for `execute_interrupt_breakpoint_outcomes` at a concrete input:
a breakpoint hit without ignore-breakpoints transfers plan ownership and
reports the process left in place. -/
theorem execute_interrupt_breakpoint_outcomes_witness :
    (Execute envHitBp optsNone sJit).result =
      envHitBp.runThreadPlanResult ∧
    (Execute envHitBp optsNone sJit).events.filter isDematerializeEv = [] ∧
    ((envHitBp.runThreadPlanResult = ExpressionResults.eExpressionHitBreakpoint ∧
        optsNone.ignore_breakpoints = false) →
      Event.transferExpressionOwnershipEv ∈ (Execute envHitBp optsNone sJit).events ∧
      Msg.processLeftAtInterruption ∈ (Execute envHitBp optsNone sJit).msgs) ∧
    (((envHitBp.runThreadPlanResult = ExpressionResults.eExpressionInterrupted ∧
         optsNone.unwind_on_error = true) ∨
      (envHitBp.runThreadPlanResult = ExpressionResults.eExpressionHitBreakpoint ∧
         optsNone.ignore_breakpoints = true)) →
      Msg.processReturnedToState ∈ (Execute envHitBp optsNone sJit).msgs) :=
  execute_interrupt_breakpoint_outcomes envHitBp optsNone sJit (by decide) (by rfl)
    (by decide) (by rfl) (by rfl) (by rfl) (Or.inr (by rfl))

/-- C1: when the execution path reports `Completed` (interpreter success, or
`RunThreadPlan` returning `Completed`) but the dematerialization in
`FinalizeJITExecution` fails, `Execute` returns
`eExpressionResultUnavailable` — not `eExpressionCompleted` and not the
generic `eExpressionSetupError`. -/
theorem execute_dematerialize_failure_result_unavailable (env : Env)
    (options : EvaluateExpressionOptions) (s : ExprState)
    (helig : s.m_jit_start_addr ≠ LLDB_INVALID_ADDRESS ∨ s.m_can_interpret = true)
    (hok : (PrepareToExecuteJITExpression env s LLDB_INVALID_ADDRESS).ok = true)
    (hbi : s.m_can_interpret = true →
      env.modulePresent = true ∧ env.functionPresent = true ∧
      env.addInitialArguments = true ∧ env.interpretSuccess = true)
    (hbj : s.m_can_interpret = false →
      env.hasThreadScope = true ∧ env.addInitialArguments = true ∧
      env.validatePlan = true ∧
      env.runThreadPlanResult = ExpressionResults.eExpressionCompleted)
    (hdemat : env.dematerializeSuccess = false) :
    (Execute env options s).result = ExpressionResults.eExpressionResultUnavailable ∧
    (Execute env options s).result ≠ ExpressionResults.eExpressionCompleted ∧
    (Execute env options s).result ≠ ExpressionResults.eExpressionSetupError := by
  have hdm := prepare_ok_dematerializer env s LLDB_INVALID_ADDRESS helig hok
  cases hci : s.m_can_interpret with
  | true =>
    obtain ⟨hm, hf, ha, hi⟩ := hbi hci
    rw [execute_eq_executeInterpret env options s hok hci]
    unfold executeInterpret executeFinalize FinalizeJITExecution
    simp [hm, hf, ha, hi, hdm, hdemat]
  | false =>
    obtain ⟨ht, ha, hp, hrun⟩ := hbj hci
    have hjit : s.m_jit_start_addr ≠ LLDB_INVALID_ADDRESS := by
      rcases helig with h | h
      · exact h
      · rw [hci] at h
        exact absurd h (by simp)
    rw [execute_eq_executeJIT env options s hjit hok hci]
    unfold executeJIT classifyExecutionResult executeFinalize FinalizeJITExecution
    simp [ht, ha, hp, hrun, hdm, hdemat]

/-- Witness for `execute_dematerialize_failure_result_unavailable` at a
concrete input. -/
theorem execute_dematerialize_failure_result_unavailable_witness :
    (Execute envDematFail optsNone sJit).result =
      ExpressionResults.eExpressionResultUnavailable ∧
    (Execute envDematFail optsNone sJit).result ≠
      ExpressionResults.eExpressionCompleted ∧
    (Execute envDematFail optsNone sJit).result ≠
      ExpressionResults.eExpressionSetupError :=
  execute_dematerialize_failure_result_unavailable envDematFail optsNone sJit
    (Or.inl (by decide)) (by decide) (by intro h; exact absurd h (by decide))
    (fun _ => ⟨by rfl, by rfl, by rfl, by rfl⟩) (by rfl)

end LLVMUserExpression
